import Mathlib

/-!
Verification development for the Aidex backend chat pipeline
(src/backend/main.py and src/backend/agents.py).

The embedding models the `/chat` endpoint handler: the medical-guard gate,
the symptom-analysis step, the session store (`chat_sessions`) with its
10-turn retention window, and the translation step.  Upstream Gemini calls
are modelled by an oracle function `Env.net : Nat -> GeminiRet` giving the
result of the n-th network call of a request; `call_gemini_api` either
short-circuits on a missing API key (returning the error dict, exactly as
the Python helper does) or consumes the next oracle answer and records the
call in a log.  All four Python return paths of `call_gemini_api`
(extracted text, unexpected-shape error, HTTP error, exception) are strings
or single-key error dicts, so they collapse into the two-constructor sum
`GeminiRet`.
-/

/-! ### A model of Python JSON values and `json.loads`

The chat handler runs `json.loads` on the gate response and then reads
`guard_response.get("is_medical")`, branching on Python truthiness.  We
model JSON values and a recursive-descent parser (fuelled by input length)
covering objects, arrays, strings without escapes, integers and the three
literals - enough to agree with `json.loads` on every input used below.
-/

inductive JVal where
  | jnull
  | jbool (b : Bool)
  | jnum (n : Int)
  | jstr (s : String)
  | jarr (xs : List JVal)
  | jobj (kvs : List (String × JVal))

def braceO : Char := Char.ofNat 123

def braceC : Char := Char.ofNat 125

def isWsChar (c : Char) : Bool := c = ' ' || c = '\n' || c = '\t' || c = '\r'

def skipWs : List Char → List Char
  | [] => []
  | c :: cs => if isWsChar c then skipWs cs else c :: cs

def isDigitCh (c : Char) : Bool := '0' ≤ c && c ≤ '9'

def takeDigits : List Char → (List Char × List Char)
  | [] => ([], [])
  | c :: cs =>
    if isDigitCh c then
      let r := takeDigits cs
      (c :: r.1, r.2)
    else ([], c :: cs)

def digitsVal (ds : List Char) : Nat := ds.foldl (fun a c => a * 10 + (c.toNat - 48)) 0

/-- Scan the body of a JSON string (no escape support) up to the closing quote. -/
def takeStr : List Char → Option (List Char × List Char)
  | [] => none
  | c :: cs =>
    if c = '"' then some ([], cs)
    else
      match takeStr cs with
      | some (s, rest) => some (c :: s, rest)
      | none => none

/-- Parser request: parse one value, an array tail, or an object tail. -/
inductive PIn where
  | pv (cs : List Char)
  | pe (cs : List Char)
  | pm (cs : List Char)

/-- Parser result, tagged to match the request. -/
inductive POut where
  | pv (v : JVal) (rest : List Char)
  | pe (xs : List JVal) (rest : List Char)
  | pm (kvs : List (String × JVal)) (rest : List Char)

/-- One fuelled worker for the three mutually recursive parse procedures
(value, array elements, object members); structural recursion on the fuel. -/
def parseGo : Nat → PIn → Option POut
  | 0, _ => none
  | fuel + 1, .pv cs =>
    match skipWs cs with
    | [] => none
    | c :: rest =>
      if c = '"' then
        match takeStr rest with
        | some (s, rest2) => some (.pv (.jstr (String.mk s)) rest2)
        | none => none
      else if c = braceO then
        match skipWs rest with
        | c2 :: rest2 =>
          if c2 = braceC then some (.pv (.jobj []) rest2)
          else
            match parseGo fuel (.pm (c2 :: rest2)) with
            | some (.pm kvs rest3) => some (.pv (.jobj kvs) rest3)
            | _ => none
        | [] => none
      else if c = '[' then
        match skipWs rest with
        | c2 :: rest2 =>
          if c2 = ']' then some (.pv (.jarr []) rest2)
          else
            match parseGo fuel (.pe (c2 :: rest2)) with
            | some (.pe xs rest3) => some (.pv (.jarr xs) rest3)
            | _ => none
        | [] => none
      else if c = '-' then
        match takeDigits rest with
        | ([], _) => none
        | (ds, rest2) => some (.pv (.jnum (-(digitsVal ds : Int))) rest2)
      else if isDigitCh c then
        match takeDigits (c :: rest) with
        | (ds, rest2) => some (.pv (.jnum (digitsVal ds)) rest2)
      else
        match c :: rest with
        | 'n' :: 'u' :: 'l' :: 'l' :: r => some (.pv .jnull r)
        | 't' :: 'r' :: 'u' :: 'e' :: r => some (.pv (.jbool true) r)
        | 'f' :: 'a' :: 'l' :: 's' :: 'e' :: r => some (.pv (.jbool false) r)
        | _ => none
  | fuel + 1, .pe cs =>
    match parseGo fuel (.pv cs) with
    | some (.pv v rest) =>
      match skipWs rest with
      | c :: rest2 =>
        if c = ',' then
          match parseGo fuel (.pe rest2) with
          | some (.pe xs rest3) => some (.pe (v :: xs) rest3)
          | _ => none
        else if c = ']' then some (.pe [v] rest2)
        else none
      | [] => none
    | _ => none
  | fuel + 1, .pm cs =>
    match skipWs cs with
    | c :: rest =>
      if c = '"' then
        match takeStr rest with
        | some (k, rest2) =>
          match skipWs rest2 with
          | c2 :: rest3 =>
            if c2 = ':' then
              match parseGo fuel (.pv rest3) with
              | some (.pv v rest4) =>
                match skipWs rest4 with
                | c3 :: rest5 =>
                  if c3 = ',' then
                    match parseGo fuel (.pm rest5) with
                    | some (.pm kvs rest6) => some (.pm ((String.mk k, v) :: kvs) rest6)
                    | _ => none
                  else if c3 = braceC then some (.pm [(String.mk k, v)] rest5)
                  else none
                | [] => none
              | _ => none
            else none
          | [] => none
        | none => none
      else none
    | [] => none

def parseVal (fuel : Nat) (cs : List Char) : Option (JVal × List Char) :=
  match parseGo fuel (.pv cs) with
  | some (.pv v rest) => some (v, rest)
  | _ => none

/-- Model of Python `json.loads`: parse the whole input, requiring only
trailing whitespace after the value; `none` models a raised
`json.JSONDecodeError`. -/
def json_loads (s : String) : Option JVal :=
  match parseVal (s.length + 1) s.data with
  | some (v, rest) =>
    match skipWs rest with
    | [] => some v
    | _ :: _ => none
  | none => none

/-- Python truthiness of a JSON value, as used by
`if not guard_response.get("is_medical"):`. -/
def pyTruthy : JVal → Bool
  | .jnull => false
  | .jbool b => b
  | .jnum n => decide (n ≠ 0)
  | .jstr s => decide (s ≠ "")
  | .jarr xs => !xs.isEmpty
  | .jobj kvs => !kvs.isEmpty

/-- Python `dict.get(k)` on a parsed JSON object (default `None`).  The
scan runs right-to-left so that, as in `json.loads`, a repeated key takes
its last occurrence. -/
def dictGet (kvs : List (String × JVal)) (k : String) : JVal :=
  match kvs.reverse.find? (fun p => p.1 = k) with
  | some p => p.2
  | none => .jnull

/-! ### Python substring membership (`"error" not in translated_text`) -/

def charsStart : List Char → List Char → Bool
  | [], _ => true
  | _ :: _, [] => false
  | a :: as, b :: bs => a = b && charsStart as bs

def charsHaveSub (needle : List Char) : List Char → Bool
  | [] => charsStart needle []
  | c :: cs => charsStart needle (c :: cs) || charsHaveSub needle cs

/-- Python `needle in hay` for strings: substring containment. -/
def containsSub (needle hay : String) : Bool := charsHaveSub needle.data hay.data

/-! ### Data model: completion results, turns, the session store -/

/-- Result of `call_gemini_api` in main.py: either the extracted text of the
first candidate, or one of the single-key error dicts the helper returns
(missing key, unexpected shape, non-200 status, raised exception). -/
inductive GeminiRet where
  | text (s : String)
  | errorDict (msg : String)
deriving DecidableEq

/-- A Python value that may end up in the "reply" field of the response or
in the "content" field of a stored turn: a plain string, or the error dict
produced by a failed upstream call. -/
inductive ReplyVal where
  | text (s : String)
  | errObj (msg : String)
deriving DecidableEq

def toReplyVal : GeminiRet → ReplyVal
  | .text s => .text s
  | .errorDict m => .errObj m

inductive Role where
  | user
  | assistant
deriving DecidableEq

/-- One entry of a session history list, as appended at main.py lines
154-155: the user content is always a string, the assistant content is
whatever `call_gemini_api` returned. -/
structure Turn where
  role : Role
  content : ReplyVal
deriving DecidableEq

/-- The `chat_sessions` module-level dict; `none` means the id was never
seen (no list created for it yet). -/
def Store : Type := String → Option (List Turn)

/-- Record of one network request actually sent to the Gemini endpoint. -/
structure GeminiCall where
  prompt : String
  model : String
  wantJson : Bool
deriving DecidableEq

/-- How many network calls were made so far in this request, plus the log
of those calls (used to state which upstream calls a request performs). -/
structure CallState where
  count : Nat
  log : List GeminiCall
deriving DecidableEq

/-- Environment of one `/chat` request: the configured credential (or its
absence) and an oracle giving the upstream outcome of the n-th network
call the handler makes. -/
structure Env where
  apiKey : Option String
  net : Nat → GeminiRet

def missingKeyMsg : String :=
  "GEMINI_API_KEY not found. Make sure it is set in your .env file."

/-- Embedding of `call_gemini_api` (main.py lines 54-95).  With no key it
returns the error dict without touching the network; otherwise the oracle
supplies the outcome of the network call and the call is logged. -/
def call_gemini_api (env : Env) (st : CallState) (prompt : String) (model : String)
    (wantJson : Bool) : GeminiRet × CallState :=
  match env.apiKey with
  | none => (.errorDict missingKeyMsg, st)
  | some _ => (env.net st.count, ⟨st.count + 1, st.log ++ [⟨prompt, model, wantJson⟩]⟩)

/-! ### Prompt builders (agents.py)

The builders are pure string constructions; the text reproduces the
f-string templates of agents.py with indentation normalized and
newlines written explicitly. -/

def MedicalGuardAgent.get_prompt (user_query : String) : String :=
  "You are a classification model for a medical assistant AI. Your task is to determine if the user\x27s query is related to medicine, health, symptoms, or wellness.\n\n"
  ++ "Analyze the following user query: \"" ++ user_query ++ "\"\n\n"
  ++ "Respond with a JSON object containing a single key \"is_medical\" which is a boolean.\n"
  ++ "- If the query is medical, wellness, or health-related, set \"is_medical\" to true.\n"
  ++ "- If the query is NOT medical (e.g., asking about math, history, coding, or casual conversation), set \"is_medical\" to false.\n\n"
  ++ "Examples:\n"
  ++ "- Query: \"I have a headache and a fever.\" -> \x7b\"is_medical\": true\x7d\n"
  ++ "- Query: \"What are the side effects of ibuprofen?\" -> \x7b\"is_medical\": true\x7d\n"
  ++ "- Query: \"What is the capital of France?\" -> \x7b\"is_medical\": false\x7d\n"
  ++ "- Query: \"Hello, how are you?\" -> \x7b\"is_medical\": false\x7d\n"
  ++ "- Query: \"My stomach hurts.\" -> \x7b\"is_medical\": true\x7d"

/-- Python `str()` of a stored content value: the string itself, or the
repr of the single-key error dict. -/
def contentStr : ReplyVal → String
  | .text s => s
  | .errObj m => "\x7b\x27error\x27: \x27" ++ m ++ "\x27\x7d"

def roleStr : Role → String
  | .user => "user"
  | .assistant => "assistant"

/-- One line of the embedded history: f"\x7bmsg[role]\x7d: \x7bmsg[content]\x7d". -/
def historyLine (t : Turn) : String := roleStr t.role ++ ": " ++ contentStr t.content

def historyStr (h : List Turn) : String := String.intercalate "\n" (h.map historyLine)

def SymptomAnalysisAgent.get_prompt (user_query : String) (chat_history : List Turn) : String :=
  "You are Aidex, a friendly, empathetic, and highly conversational AI medical assistant.\n"
  ++ "Your goal is to help the user understand their symptoms better by asking clarifying questions.\n"
  ++ "You are NOT a doctor and you MUST NOT provide a diagnosis or prescribe medication.\n"
  ++ "Your primary role is to gather information in a caring and chatty manner.\n\n"
  ++ "**Your Persona:**\n"
  ++ "- Chatty & Conversational: Use natural, flowing language. Avoid robotic responses.\n"
  ++ "- Empathetic: Acknowledge the user\x27s feelings.\n"
  ++ "- Inquisitive: Always ask questions to get more details. Never give a final answer without asking for more info first.\n"
  ++ "- Safe: Always include a disclaimer that you are not a real doctor and they should consult a healthcare professional.\n\n"
  ++ "**Conversation Flow:**\n"
  ++ "1. Acknowledge the user\x27s symptom.\n"
  ++ "2. Ask at least TWO clarifying questions to understand the symptom better.\n"
  ++ "3. Keep your responses concise but warm.\n"
  ++ "4. End every single response with your safety disclaimer.\n\n"
  ++ "**Chat History (for context):**\n"
  ++ historyStr chat_history ++ "\n\n"
  ++ "**Current User Query:** \"" ++ user_query ++ "\"\n\n"
  ++ "Now, generate a response based on this query and the history."

def language_map : List (String × String) :=
  [("es", "Spanish"), ("hi", "Hindi"), ("fr", "French"), ("de", "German"),
   ("zh", "Chinese"), ("ja", "Japanese"), ("ru", "Russian"), ("ar", "Arabic"), ("te", "Telugu")]

/-- Python `dict.get(k, default)` on the (duplicate-free) language map. -/
def mapGet (m : List (String × String)) (k dflt : String) : String :=
  match m.find? (fun p => p.1 = k) with
  | some p => p.2
  | none => dflt

/-- The translation template applied to an already-resolved language name. -/
def LanguageTranslationAgent.promptFor (text_to_translate target_language : String) : String :=
  "You are a translation model. Translate the following text into " ++ target_language ++ ".\n"
  ++ "Do not add any extra commentary or explanation, just provide the direct translation.\n\n"
  ++ "Text to translate: \"" ++ text_to_translate ++ "\""

def LanguageTranslationAgent.get_prompt (text_to_translate target_language_code : String) : String :=
  LanguageTranslationAgent.promptFor text_to_translate
    (mapGet language_map target_language_code "English")

/-! ### The chat orchestrator (main.py lines 107-167) -/

def emptyMsgReply : String := "Message cannot be empty."

def troubleMsg : String :=
  "I\x27m sorry, I\x27m having trouble understanding the nature of your request right now."

def refusalMsg : String :=
  "I am an AI medical assistant named Aidex. I can only answer questions related to medical symptoms, health conditions, and wellness. How can I help you with a medical topic?"

/-- Outcome of the handler: the `\x7b"error": ...\x7d` body for an empty
message, a `\x7b"reply": ...\x7d` body, or an exception escaping the
handler (an uncaught `AttributeError` when the parsed gate JSON is not an
object). -/
inductive ChatResult where
  | errorResp (msg : String)
  | reply (v : ReplyVal)
  | crash (exc : String)
deriving DecidableEq

structure ChatOut where
  result : ChatResult
  store : Store
  calls : CallState

/-- Lines 153-157: append the user turn and the assistant turn, then trim
the stored list to its newest 10 entries (`history[-10:]`). -/
def lastN (n : Nat) (xs : List α) : List α := (xs.reverse.take n).reverse

def sessionStep (history : List Turn) (u a : Turn) : List Turn :=
  lastN 10 (history ++ [u, a])

/-- Embedding of the `/chat` handler.  `message`, `session_id` and
`language` are the body fields after their Python defaults
("default_session", "en") have been applied; an absent message and the
empty string are both falsy in Python and collapse to `""` here. -/
def chat (env : Env) (message session_id language : String) (store : Store) : ChatOut :=
  if message = "" then ⟨.errorResp emptyMsgReply, store, ⟨0, []⟩⟩
  else
    let guard_prompt := MedicalGuardAgent.get_prompt message
    let gr := call_gemini_api env ⟨0, []⟩ guard_prompt "gemini-2.0-flash" true
    match gr.1 with
    | .errorDict _ => ⟨.reply (.text troubleMsg), store, gr.2⟩
    | .text s =>
      match json_loads s with
      | none => ⟨.reply (.text troubleMsg), store, gr.2⟩
      | some (.jobj kvs) =>
        if pyTruthy (dictGet kvs "is_medical") then
          let history := (store session_id).getD []
          let analysis_prompt := SymptomAnalysisAgent.get_prompt message history
          let ar := call_gemini_api env gr.2 analysis_prompt "gemini-2.5-pro" false
          let trimmed := sessionStep history ⟨.user, .text message⟩ ⟨.assistant, toReplyVal ar.1⟩
          let store2 : Store := fun id => if id = session_id then some trimmed else store id
          if language ≠ "en" ∧ language ≠ "en-US" then
            let translation_prompt :=
              LanguageTranslationAgent.get_prompt (contentStr (toReplyVal ar.1)) language
            let tr := call_gemini_api env ar.2 translation_prompt "gemini-2.0-flash" false
            let final_response :=
              match tr.1 with
              | .errorDict _ => ar.1
              | .text t => if containsSub "error" t then ar.1 else .text t
            ⟨.reply (toReplyVal final_response), store2, tr.2⟩
          else ⟨.reply (toReplyVal ar.1), store2, ar.2⟩
        else
          if language ≠ "en" then
            let tr := call_gemini_api env gr.2
              (LanguageTranslationAgent.get_prompt refusalMsg language) "gemini-2.0-flash" false
            ⟨.reply (toReplyVal tr.1), store, tr.2⟩
          else ⟨.reply (.text refusalMsg), store, gr.2⟩
      | some _ => ⟨.crash "AttributeError", store, gr.2⟩

def emptyStore : Store := fun _ => none

def gateTrueStr : String := "\x7b\"is_medical\": true\x7d"

def gateFalseStr : String := "\x7b\"is_medical\": false\x7d"

/-! ### Concrete oracle environments used in checks, witnesses and counterexamples -/

def netA : Nat → GeminiRet
  | 0 => .text gateTrueStr
  | 1 => .text "Analysis reply."
  | _ => .text "Texto traducido."

def netB : Nat → GeminiRet
  | 0 => .text gateFalseStr
  | _ => .text "Refus traduit."

/-! ### Session-window infrastructure

`sessionStep` is the update the handler performs on the stored list of a
session (append the user turn, append the assistant turn, keep the newest
10).  `appendTurn` is the same retention discipline for a single turn;
two `appendTurn`s compose into one `sessionStep`. -/

def appendTurn (h : List Turn) (t : Turn) : List Turn := lastN 10 (h ++ [t])

def appendRun (ts : List Turn) : List Turn := ts.foldl appendTurn []

/-! ### Exchange pairs (for the pairing invariant of the history) -/

def exchangeTurns (e : String × ReplyVal) : List Turn :=
  [⟨.user, .text e.1⟩, ⟨.assistant, e.2⟩]

def exchangesTurns : List (String × ReplyVal) → List Turn
  | [] => []
  | e :: es => exchangeTurns e ++ exchangesTurns es

/-! The two fixed upstream calls of the medical path, as logged. -/

def gateCall (message : String) : GeminiCall :=
  ⟨MedicalGuardAgent.get_prompt message, "gemini-2.0-flash", true⟩

def analysisCall (message : String) (history : List Turn) : GeminiCall :=
  ⟨SymptomAnalysisAgent.get_prompt message history, "gemini-2.5-pro", false⟩

/-- One inbound `/chat` request of a sequential run. -/
structure Req where
  env : Env
  message : String
  session_id : String
  language : String

/-- Sequential (non-interleaved) execution of a list of `/chat` requests,
threading the session map. -/
def runChats (rs : List Req) (store : Store) : Store :=
  rs.foldl (fun st r => (chat r.env r.message r.session_id r.language st).store) store

/-- A history that is a concatenation of at most five complete
(user, assistant) exchanges. -/
def pairedHistory (h : List Turn) : Prop :=
  ∃ es : List (String × ReplyVal), es.length ≤ 5 ∧ h = exchangesTurns es

def pairedStore (store : Store) : Prop :=
  ∀ sid : String, pairedHistory ((store sid).getD [])

/-! ### Concrete environments for witnesses and counterexamples -/

def netC1 : Nat → GeminiRet
  | 0 => .text gateTrueStr
  | _ => .errorDict "Failed to get response from Gemini API. Status: 500"

def netC1w : Nat → GeminiRet
  | _ => .errorDict "boom"

def netC3 : Nat → GeminiRet
  | 0 => .text gateFalseStr
  | _ => .errorDict "Failed to get response from Gemini API. Status: 503"

def netC3w : Nat → GeminiRet
  | 0 => .text gateTrueStr
  | 1 => .text "Analysis text."
  | _ => .errorDict "boom"

def netC5 : Nat → GeminiRet
  | 0 => .text "\x7b\x7d"
  | _ => .text "unused"

def netC5w : Nat → GeminiRet
  | _ => .text "not json"

def netC6 : Nat → GeminiRet
  | _ => .text "unused"

def netC7 : Nat → GeminiRet
  | 0 => .text gateTrueStr
  | _ => .text "Assistant reply."

/-- Ten turns (five complete exchanges): a full retention window. -/
def tenTurns : List Turn :=
  exchangesTurns [("m1", .text "r1"), ("m2", .text "r2"), ("m3", .text "r3"),
                  ("m4", .text "r4"), ("m5", .text "r5")]

def storeC7 : Store := fun id => if id = "s1" then some tenTurns else none

/-! ### Evaluation checks for the parser and the handler -/

example : json_loads "\x7b\"is_medical\": true\x7d" = some (.jobj [("is_medical", .jbool true)]) := by rfl
example : json_loads "\x7b\x7d" = some (.jobj []) := by rfl
example : json_loads "not json" = none := by rfl
example : json_loads "true" = some (.jbool true) := by rfl
example : containsSub "error" "an error occurred" = true := by decide
example : containsSub "error" "Bonjour" = false := by decide

example : (chat ⟨some "k", netA⟩ "I have a headache" "s1" "en" emptyStore).result
    = .reply (.text "Analysis reply.") := by rfl

example : (chat ⟨some "k", netA⟩ "I have a headache" "s1" "es" emptyStore).result
    = .reply (.text "Texto traducido.") := by rfl

example : ((chat ⟨some "k", netA⟩ "I have a headache" "s1" "en" emptyStore).store "s1")
    = some [⟨.user, .text "I have a headache"⟩, ⟨.assistant, .text "Analysis reply."⟩] := by rfl

example : (chat ⟨some "k", netA⟩ "I have a headache" "s1" "en" emptyStore).calls.count = 2 := by rfl

example : (chat ⟨some "k", netB⟩ "What is 2+2?" "s1" "en" emptyStore).result
    = .reply (.text refusalMsg) := by rfl

example : (chat ⟨some "k", netB⟩ "What is 2+2?" "s1" "fr" emptyStore).result
    = .reply (.text "Refus traduit.") := by rfl

example : (chat ⟨some "k", netB⟩ "" "s1" "en" emptyStore).result
    = .errorResp emptyMsgReply := by rfl

example : (chat ⟨none, netA⟩ "I have a headache" "s1" "en" emptyStore).result
    = .reply (.text troubleMsg) := by rfl

/-! ### List lemmas for the retention window -/

theorem take_append_take (n : Nat) (as bs : List α) :
    (as ++ bs.take n).take n = (as ++ bs).take n := by
  rw [List.take_append_eq_append_take, List.take_append_eq_append_take, List.take_take,
    Nat.min_eq_left (Nat.sub_le n as.length)]

theorem lastN_length (n : Nat) (xs : List α) : (lastN n xs).length = min n xs.length := by
  simp [lastN]

theorem lastN_length_le (n : Nat) (xs : List α) : (lastN n xs).length ≤ n := by
  rw [lastN_length]; omega

theorem lastN_of_length_le {n : Nat} {xs : List α} (h : xs.length ≤ n) : lastN n xs = xs := by
  rw [lastN, List.take_of_length_le (by simpa using h), List.reverse_reverse]

theorem lastN_append_lastN (n : Nat) (xs ys : List α) :
    lastN n (lastN n xs ++ ys) = lastN n (xs ++ ys) := by
  rw [lastN, lastN, lastN, List.reverse_append, List.reverse_reverse, take_append_take,
    ← List.reverse_append]

theorem lastN_suffix (n : Nat) (xs : List α) : lastN n xs <:+ xs := by
  rw [← List.reverse_prefix]
  simpa [lastN] using List.take_prefix n xs.reverse

theorem lastN_eq_drop (n : Nat) (xs : List α) : lastN n xs = xs.drop (xs.length - n) := by
  rw [lastN, List.take_reverse, List.reverse_reverse]

theorem foldl_lastN_append (n : Nat) (ts : List α) : ∀ h : List α, h.length ≤ n →
    ts.foldl (fun acc t => lastN n (acc ++ [t])) h = lastN n (h ++ ts) := by
  induction ts with
  | nil => intro h hle; simpa using (lastN_of_length_le hle).symm
  | cons t ts ih =>
    intro h _
    rw [List.foldl_cons, ih _ (lastN_length_le n _), lastN_append_lastN]
    simp


theorem exchangesTurns_append (as bs : List (String × ReplyVal)) :
    exchangesTurns (as ++ bs) = exchangesTurns as ++ exchangesTurns bs := by
  induction as with
  | nil => simp [exchangesTurns]
  | cons a as ih => simp [exchangesTurns, ih]

theorem exchangesTurns_length (es : List (String × ReplyVal)) :
    (exchangesTurns es).length = 2 * es.length := by
  induction es with
  | nil => simp [exchangesTurns]
  | cons e es ih => simp [exchangesTurns, exchangeTurns, ih]; omega

theorem exchangesTurns_drop (es : List (String × ReplyVal)) :
    ∀ j, (exchangesTurns es).drop (2 * j) = exchangesTurns (es.drop j) := by
  induction es with
  | nil => intro j; simp [exchangesTurns]
  | cons e es ih =>
    intro j
    cases j with
    | zero => simp
    | succ j =>
      have h2 : 2 * (j + 1) = 2 * j + 1 + 1 := by omega
      rw [h2]
      show (Turn.mk .user (.text e.1) :: Turn.mk .assistant e.2 :: exchangesTurns es).drop
        (2 * j + 1 + 1) = exchangesTurns ((e :: es).drop (j + 1))
      rw [List.drop_succ_cons, List.drop_succ_cons, ih j]
      rfl

theorem lastN_exchangesTurns (es : List (String × ReplyVal)) :
    lastN 10 (exchangesTurns es) = exchangesTurns (lastN 5 es) := by
  rw [lastN_eq_drop, lastN_eq_drop, exchangesTurns_length]
  have h2 : 2 * es.length - 10 = 2 * (es.length - 5) := by omega
  rw [h2, exchangesTurns_drop]


/-! ### Reduction lemmas: one equation per control path of `chat` -/

theorem chat_no_key_eq (env : Env) (message sid lang : String) (store : Store)
    (hm : message ≠ "") (hk : env.apiKey = none) :
    chat env message sid lang store = ⟨.reply (.text troubleMsg), store, ⟨0, []⟩⟩ := by
  simp only [chat, call_gemini_api, hk, if_neg hm]

theorem chat_gate_error_eq (env : Env) (message sid lang : String) (store : Store)
    (k e : String) (hm : message ≠ "") (hk : env.apiKey = some k)
    (h0 : env.net 0 = .errorDict e) :
    chat env message sid lang store
      = ⟨.reply (.text troubleMsg), store, ⟨1, [gateCall message]⟩⟩ := by
  simp only [chat, call_gemini_api, hk, h0, if_neg hm, gateCall, List.nil_append]

theorem chat_gate_badjson_eq (env : Env) (message sid lang : String) (store : Store)
    (k gs : String) (hm : message ≠ "") (hk : env.apiKey = some k)
    (h0 : env.net 0 = .text gs) (hp : json_loads gs = none) :
    chat env message sid lang store
      = ⟨.reply (.text troubleMsg), store, ⟨1, [gateCall message]⟩⟩ := by
  simp only [chat, call_gemini_api, hk, h0, hp, if_neg hm, gateCall, List.nil_append]

theorem chat_refusal_eq (env : Env) (message sid lang : String) (store : Store)
    (k gs : String) (kvs : List (String × JVal))
    (hm : message ≠ "") (hk : env.apiKey = some k)
    (h0 : env.net 0 = .text gs) (hp : json_loads gs = some (.jobj kvs))
    (hf : pyTruthy (dictGet kvs "is_medical") = false) :
    chat env message sid lang store
      = if lang ≠ "en" then
          ⟨.reply (toReplyVal (env.net 1)), store,
            ⟨2, [gateCall message,
                 ⟨LanguageTranslationAgent.get_prompt refusalMsg lang, "gemini-2.0-flash", false⟩]⟩⟩
        else ⟨.reply (.text refusalMsg), store, ⟨1, [gateCall message]⟩⟩ := by
  simp only [chat, call_gemini_api, hk, h0, hp, hf, if_neg hm, gateCall, List.nil_append,
    Bool.false_eq_true, if_false, List.singleton_append]

theorem chat_medical_eq (env : Env) (message sid lang : String) (store : Store)
    (k gs : String) (kvs : List (String × JVal))
    (hm : message ≠ "") (hk : env.apiKey = some k)
    (h0 : env.net 0 = .text gs) (hp : json_loads gs = some (.jobj kvs))
    (ht : pyTruthy (dictGet kvs "is_medical") = true) :
    chat env message sid lang store
      = (let history := (store sid).getD []
         let ar := env.net 1
         let trimmed := sessionStep history ⟨.user, .text message⟩ ⟨.assistant, toReplyVal ar⟩
         let store2 : Store := fun id => if id = sid then some trimmed else store id
         if lang ≠ "en" ∧ lang ≠ "en-US" then
           let tcall : GeminiCall :=
             ⟨LanguageTranslationAgent.get_prompt (contentStr (toReplyVal ar)) lang,
              "gemini-2.0-flash", false⟩
           let final :=
             match env.net 2 with
             | .errorDict _ => ar
             | .text t => if containsSub "error" t then ar else .text t
           ⟨.reply (toReplyVal final), store2,
             ⟨3, [gateCall message, analysisCall message history, tcall]⟩⟩
         else
           ⟨.reply (toReplyVal ar), store2,
             ⟨2, [gateCall message, analysisCall message history]⟩⟩) := by
  simp only [chat, call_gemini_api, hk, h0, hp, ht, if_neg hm, gateCall, analysisCall,
    List.nil_append, if_true, List.singleton_append, List.cons_append]


/-! ### The shape of the store after one request, and sequential runs -/

/-- Every `/chat` request either leaves the session map unchanged, or
replaces exactly the addressed session with the trimmed
old-history-plus-user-and-assistant pair. -/
theorem chat_store_shape (env : Env) (m sid lang : String) (store : Store) :
    (chat env m sid lang store).store = store ∨
    ∃ a : ReplyVal, (chat env m sid lang store).store =
      fun id => if id = sid then
        some (sessionStep ((store sid).getD []) ⟨.user, .text m⟩ ⟨.assistant, a⟩)
      else store id := by
  by_cases hm : m = ""
  · simp only [chat, if_pos hm]; exact Or.inl trivial
  · cases hk : env.apiKey with
    | none => rw [chat_no_key_eq env m sid lang store hm hk]; exact Or.inl rfl
    | some k =>
      cases h0 : env.net 0 with
      | errorDict e =>
        rw [chat_gate_error_eq env m sid lang store k e hm hk h0]; exact Or.inl rfl
      | text gs =>
        cases hp : json_loads gs with
        | none =>
          rw [chat_gate_badjson_eq env m sid lang store k gs hm hk h0 hp]; exact Or.inl rfl
        | some v =>
          cases v with
          | jnull => simp only [chat, call_gemini_api, hk, h0, hp, if_neg hm]; exact Or.inl trivial
          | jbool b => simp only [chat, call_gemini_api, hk, h0, hp, if_neg hm]; exact Or.inl trivial
          | jnum n => simp only [chat, call_gemini_api, hk, h0, hp, if_neg hm]; exact Or.inl trivial
          | jstr s => simp only [chat, call_gemini_api, hk, h0, hp, if_neg hm]; exact Or.inl trivial
          | jarr xs => simp only [chat, call_gemini_api, hk, h0, hp, if_neg hm]; exact Or.inl trivial
          | jobj kvs =>
            cases ht : pyTruthy (dictGet kvs "is_medical") with
            | false =>
              rw [chat_refusal_eq env m sid lang store k gs kvs hm hk h0 hp ht]
              left
              split <;> rfl
            | true =>
              rw [chat_medical_eq env m sid lang store k gs kvs hm hk h0 hp ht]
              refine Or.inr ⟨toReplyVal (env.net 1), ?_⟩
              dsimp only
              split <;> rfl


theorem sessionStep_paired {h : List Turn} (hp : pairedHistory h) (m : String) (a : ReplyVal) :
    pairedHistory (sessionStep h ⟨.user, .text m⟩ ⟨.assistant, a⟩) := by
  obtain ⟨es, hle, rfl⟩ := hp
  refine ⟨lastN 5 (es ++ [(m, a)]), by rw [lastN_length]; omega, ?_⟩
  rw [sessionStep]
  have hx : exchangesTurns es ++ [Turn.mk .user (.text m), Turn.mk .assistant a]
      = exchangesTurns (es ++ [(m, a)]) := by
    rw [exchangesTurns_append]
    simp [exchangesTurns, exchangeTurns]
  rw [hx, lastN_exchangesTurns]

theorem chat_preserves_paired (env : Env) (m sid lang : String) (store : Store)
    (hs : pairedStore store) : pairedStore ((chat env m sid lang store).store) := by
  rcases chat_store_shape env m sid lang store with h | ⟨a, h⟩
  · rw [h]; exact hs
  · rw [h]
    intro id
    by_cases hid : id = sid
    · subst hid
      simpa using sessionStep_paired (hs id) m a
    · simpa [hid] using hs id

theorem runChats_paired (rs : List Req) : ∀ store : Store,
    pairedStore store → pairedStore (runChats rs store) := by
  induction rs with
  | nil => intro store hs; exact hs
  | cons r rs ih =>
    intro store hs
    rw [runChats, List.foldl_cons]
    exact ih _ (chat_preserves_paired _ _ _ _ _ hs)

theorem emptyStore_paired : pairedStore emptyStore := by
  intro sid
  exact ⟨[], by simp, rfl⟩

/-! ### Claim C1 -/

/-- Claim C1 counterexample: with the gate classifying the message as
medical and the symptom-analysis completion call failing, a request with
language "en" returns the raw error dict as the value of the "reply"
field, so an error object does reach the caller. -/
theorem claimC1_counterexample :
    (chat ⟨some "key", netC1⟩ "I have a headache" "s1" "en" emptyStore).result
      = .reply (.errObj "Failed to get response from Gemini API. Status: 500") := by rfl

/-- Claim C1 (amended): failures of the gate completion call are converted
to the user-safe trouble-understanding text, but when the symptom-analysis
completion call itself returns an ErrorPayload and the language is
English, the error payload is returned as the value of the reply field. -/
theorem claimC1_amended (env : Env) (message sid lang : String) (store : Store)
    (k : String) (hm : message ≠ "") (hk : env.apiKey = some k) :
    (∀ e, env.net 0 = .errorDict e →
      (chat env message sid lang store).result = .reply (.text troubleMsg)) ∧
    (∀ gs kvs a, env.net 0 = .text gs → json_loads gs = some (.jobj kvs) →
      pyTruthy (dictGet kvs "is_medical") = true → env.net 1 = .errorDict a → lang = "en" →
      (chat env message sid lang store).result = .reply (.errObj a)) := by
  constructor
  · intro e h0
    rw [chat_gate_error_eq env message sid lang store k e hm hk h0]
  · intro gs kvs a h0 hp ht h1 hl
    subst hl
    rw [chat_medical_eq env message sid "en" store k gs kvs hm hk h0 hp ht]
    dsimp only
    rw [h1]
    simp [toReplyVal]

/-- Claim C1 witness. -/
theorem claimC1_witness :
    (chat ⟨some "key", netC1w⟩ "hi" "s" "en" emptyStore).result
      = .reply (.text troubleMsg) :=
  (claimC1_amended ⟨some "key", netC1w⟩ "hi" "s" "en" emptyStore "key"
    (by decide) rfl).1 "boom" rfl

/-! ### Claim C2 -/

/-- Claim C2: for every sequence of sequential turn appends under the
10-turn retention discipline, the stored history is exactly the newest 10
of the appended turns, hence has length at most 10 and is a suffix
(chronological order, oldest evicted first) of the appended sequence; and
the per-request pair update of the handler (append user turn, append
assistant turn, keep newest 10) equals two such single-turn appends. -/
theorem claimC2_retention_window :
    (∀ ts : List Turn,
        appendRun ts = lastN 10 ts ∧ (appendRun ts).length ≤ 10 ∧ appendRun ts <:+ ts) ∧
    (∀ (h : List Turn) (u a : Turn), sessionStep h u a = appendTurn (appendTurn h u) a) := by
  constructor
  · intro ts
    have h1 : appendRun ts = lastN 10 ts := by
      simpa [appendRun, appendTurn] using foldl_lastN_append 10 ts [] (by simp)
    exact ⟨h1, h1 ▸ lastN_length_le 10 ts, h1 ▸ lastN_suffix 10 ts⟩
  · intro h u a
    rw [sessionStep, appendTurn, appendTurn, lastN_append_lastN, List.append_assoc]
    rfl

/-! ### Claim C3 -/

/-- Claim C3 counterexample: on the refusing path (gate false) with a
non-English language, a failed translation call is returned verbatim as
the reply, an error object instead of the untranslated refusal string. -/
theorem claimC3_counterexample :
    (chat ⟨some "key", netC3⟩ "What is 2+2?" "s1" "es" emptyStore).result
      = .reply (.errObj "Failed to get response from Gemini API. Status: 503") := by rfl

/-- Claim C3 (amended): on the analyzing path a failed translation call
falls back to the pre-translation analysis text; on the refusing path the
error payload of a failed refusal translation is returned as the reply. -/
theorem claimC3_amended (env : Env) (message sid lang : String) (store : Store)
    (k gs : String) (kvs : List (String × JVal))
    (hm : message ≠ "") (hk : env.apiKey = some k)
    (h0 : env.net 0 = .text gs) (hp : json_loads gs = some (.jobj kvs))
    (hl1 : lang ≠ "en") (hl2 : lang ≠ "en-US") :
    (pyTruthy (dictGet kvs "is_medical") = true →
      ∀ a m, env.net 1 = .text a → env.net 2 = .errorDict m →
        (chat env message sid lang store).result = .reply (.text a)) ∧
    (pyTruthy (dictGet kvs "is_medical") = false →
      ∀ m, env.net 1 = .errorDict m →
        (chat env message sid lang store).result = .reply (.errObj m)) := by
  constructor
  · intro ht a m h1 h2
    rw [chat_medical_eq env message sid lang store k gs kvs hm hk h0 hp ht]
    dsimp only
    rw [h1, h2]
    simp [hl1, hl2, toReplyVal]
  · intro hf m h1
    rw [chat_refusal_eq env message sid lang store k gs kvs hm hk h0 hp hf]
    rw [h1]
    simp [hl1, toReplyVal]

/-- Claim C3 witness. -/
theorem claimC3_witness :
    (chat ⟨some "key", netC3w⟩ "I have a headache" "s1" "es" emptyStore).result
      = .reply (.text "Analysis text.") :=
  (claimC3_amended ⟨some "key", netC3w⟩ "I have a headache" "s1" "es" emptyStore "key"
    gateTrueStr [("is_medical", .jbool true)] (by decide) rfl rfl rfl
    (by decide) (by decide)).1 rfl "Analysis text." "boom" rfl rfl

/-! ### Claim C4 -/

/-- Claim C4 counterexample: a non-medical request with language "en-US"
makes a second upstream call, the translation of the refusal string, so
"en-US" does trigger a translation call on the refusal path. -/
theorem claimC4_counterexample :
    (chat ⟨some "key", netB⟩ "What is 2+2?" "s1" "en-US" emptyStore).calls.log
      = [gateCall "What is 2+2?",
         ⟨LanguageTranslationAgent.get_prompt refusalMsg "en-US", "gemini-2.0-flash", false⟩] := by
  rfl

/-- Claim C4 (amended): on the analyzing path, languages "en" and "en-US"
skip the translation call (2 upstream calls) and any other language
triggers it (3 calls); on the refusing path only exactly "en" skips
translation (1 call), every other language including "en-US" triggers the
refusal translation (2 calls). -/
theorem claimC4_amended (env : Env) (message sid lang : String) (store : Store)
    (k gs : String) (kvs : List (String × JVal))
    (hm : message ≠ "") (hk : env.apiKey = some k)
    (h0 : env.net 0 = .text gs) (hp : json_loads gs = some (.jobj kvs)) :
    (chat env message sid lang store).calls.log.length
      = if pyTruthy (dictGet kvs "is_medical") then
          (if lang = "en" ∨ lang = "en-US" then 2 else 3)
        else (if lang = "en" then 1 else 2) := by
  cases ht : pyTruthy (dictGet kvs "is_medical") with
  | true =>
    rw [chat_medical_eq env message sid lang store k gs kvs hm hk h0 hp ht]
    dsimp only
    by_cases h1 : lang = "en" ∨ lang = "en-US"
    · have h2 : ¬(lang ≠ "en" ∧ lang ≠ "en-US") := by tauto
      simp [h1, h2]
    · have h2 : lang ≠ "en" ∧ lang ≠ "en-US" := by tauto
      simp [h1, h2]
  | false =>
    rw [chat_refusal_eq env message sid lang store k gs kvs hm hk h0 hp ht]
    by_cases h1 : lang = "en"
    · simp [h1]
    · simp [h1]

/-- Claim C4 witness. -/
theorem claimC4_witness :
    (chat ⟨some "key", netA⟩ "I have a headache" "s1" "en" emptyStore).calls.log.length
      = if pyTruthy (dictGet [("is_medical", .jbool true)] "is_medical") then
          (if ("en" : String) = "en" ∨ ("en" : String) = "en-US" then 2 else 3)
        else (if ("en" : String) = "en" then 1 else 2) :=
  claimC4_amended ⟨some "key", netA⟩ "I have a headache" "s1" "en" emptyStore "key"
    gateTrueStr [("is_medical", .jbool true)] (by decide) rfl rfl rfl

/-! ### Claim C5 -/

/-- Claim C5 counterexample: when the gate call returns the valid JSON
object text with no is_medical key at all, the handler does not emit the
trouble-understanding text; it takes the non-medical refusal path. -/
theorem claimC5_counterexample :
    (chat ⟨some "key", netC5⟩ "hello" "s1" "en" emptyStore).result
      = .reply (.text refusalMsg) ∧ refusalMsg ≠ troubleMsg := by
  exact ⟨by rfl, by decide⟩

/-- Claim C5 (amended): the gate step fails closed to the generic
trouble-understanding reply when the completion client returned an
ErrorPayload or when the returned text is not valid JSON; a parsed JSON
object lacking a boolean is_medical key instead follows Python truthiness
of the missing value (the refusal path). -/
theorem claimC5_amended (env : Env) (message sid lang : String) (store : Store)
    (k : String) (hm : message ≠ "") (hk : env.apiKey = some k) :
    (∀ e, env.net 0 = .errorDict e →
      (chat env message sid lang store).result = .reply (.text troubleMsg)) ∧
    (∀ gs, env.net 0 = .text gs → json_loads gs = none →
      (chat env message sid lang store).result = .reply (.text troubleMsg)) := by
  constructor
  · intro e h0
    rw [chat_gate_error_eq env message sid lang store k e hm hk h0]
  · intro gs h0 hp
    rw [chat_gate_badjson_eq env message sid lang store k gs hm hk h0 hp]

/-- Claim C5 witness. -/
theorem claimC5_witness :
    (chat ⟨some "key", netC5w⟩ "hello" "s" "en" emptyStore).result
      = .reply (.text troubleMsg) :=
  (claimC5_amended ⟨some "key", netC5w⟩ "hello" "s" "en" emptyStore "key"
    (by decide) rfl).2 "not json" rfl rfl

/-! ### Claim C6 -/

/-- Claim C6 counterexample: with no credential configured the chat reply
is the generic trouble-understanding text, which does not mention the
credential at all; it is not a missing-credential reply. -/
theorem claimC6_counterexample :
    (chat ⟨none, netC6⟩ "hello" "s1" "en" emptyStore).result
      = .reply (.text troubleMsg) ∧
    containsSub "GEMINI_API_KEY" troubleMsg = false ∧
    containsSub "credential" troubleMsg = false ∧
    troubleMsg ≠ missingKeyMsg := by
  exact ⟨by rfl, by decide, by decide, by decide⟩

/-- Claim C6 (amended): with no upstream credential configured every
non-empty chat call returns without throwing and without attempting any
network call, but the surfaced reply is the generic trouble-understanding
text (the missing-credential message stays inside the internal error
payload and is not surfaced). -/
theorem claimC6_amended (env : Env) (message sid lang : String) (store : Store)
    (hm : message ≠ "") (hk : env.apiKey = none) :
    (chat env message sid lang store).result = .reply (.text troubleMsg) ∧
    (chat env message sid lang store).calls = ⟨0, []⟩ ∧
    (chat env message sid lang store).store = store := by
  rw [chat_no_key_eq env message sid lang store hm hk]
  exact ⟨rfl, rfl, rfl⟩

/-- Claim C6 witness. -/
theorem claimC6_witness :
    (chat ⟨none, netC6⟩ "hello" "s" "en" emptyStore).result = .reply (.text troubleMsg) ∧
    (chat ⟨none, netC6⟩ "hello" "s" "en" emptyStore).calls = ⟨0, []⟩ ∧
    (chat ⟨none, netC6⟩ "hello" "s" "en" emptyStore).store = emptyStore :=
  claimC6_amended ⟨none, netC6⟩ "hello" "s" "en" emptyStore (by decide) rfl

/-! ### Claim C7 -/

/-- Claim C7 counterexample: for a session already holding a full 10-turn
window, a medical request leaves the stored history at length 10, so the
history does not grow by exactly 2. -/
theorem claimC7_counterexample :
    tenTurns.length = 10 ∧
    (((chat ⟨some "key", netC7⟩ "I have a headache" "s1" "en" storeC7).store "s1").getD
      []).length = 10 ∧
    (((chat ⟨some "key", netC7⟩ "I have a headache" "s1" "en" storeC7).store "s1").getD
      []).length ≠ tenTurns.length + 2 := by
  exact ⟨by rfl, by rfl, by decide⟩

/-- Claim C7 (amended): every medical-classified request unconditionally
appends the user turn then the assistant turn (even when the assistant
completion call returned an ErrorPayload) and stores the newest 10 of the
result; the stored history grows by exactly 2 turns whenever the prior
history had at most 8 turns. -/
theorem claimC7_amended (env : Env) (message sid lang : String) (store : Store)
    (k gs : String) (kvs : List (String × JVal))
    (hm : message ≠ "") (hk : env.apiKey = some k)
    (h0 : env.net 0 = .text gs) (hp : json_loads gs = some (.jobj kvs))
    (ht : pyTruthy (dictGet kvs "is_medical") = true) :
    (chat env message sid lang store).store sid
      = some (sessionStep ((store sid).getD []) ⟨.user, .text message⟩
          ⟨.assistant, toReplyVal (env.net 1)⟩) ∧
    (((store sid).getD []).length ≤ 8 →
      (((chat env message sid lang store).store sid).getD []).length
        = ((store sid).getD []).length + 2) := by
  have hstore : (chat env message sid lang store).store sid
      = some (sessionStep ((store sid).getD []) ⟨.user, .text message⟩
          ⟨.assistant, toReplyVal (env.net 1)⟩) := by
    rw [chat_medical_eq env message sid lang store k gs kvs hm hk h0 hp ht]
    dsimp only
    split <;> simp
  refine ⟨hstore, fun hle => ?_⟩
  rw [hstore, Option.getD_some, sessionStep, lastN_length, List.length_append]
  simp
  omega

/-- Claim C7 witness. -/
theorem claimC7_witness :
    (chat ⟨some "key", netC7⟩ "I have a headache" "s1" "en" emptyStore).store "s1"
      = some (sessionStep ((emptyStore "s1").getD []) ⟨.user, .text "I have a headache"⟩
          ⟨.assistant, toReplyVal (netC7 1)⟩) :=
  (claimC7_amended ⟨some "key", netC7⟩ "I have a headache" "s1" "en" emptyStore "key"
    gateTrueStr [("is_medical", .jbool true)] (by decide) rfl rfl rfl rfl).1

/-! ### Claim C8 -/

/-- Claim C8: a request whose gate decision is the boolean false with
language "en" replies with the fixed refusal string verbatim, leaves the
session map untouched, and makes no upstream call beyond the gate call
(in particular the conversation-agent prompt never reaches a call). -/
theorem claimC8_refusal_en (env : Env) (message sid : String) (store : Store)
    (k gs : String) (kvs : List (String × JVal))
    (hm : message ≠ "") (hk : env.apiKey = some k)
    (h0 : env.net 0 = .text gs) (hp : json_loads gs = some (.jobj kvs))
    (hf : dictGet kvs "is_medical" = .jbool false) :
    (chat env message sid "en" store).result = .reply (.text refusalMsg) ∧
    (chat env message sid "en" store).store = store ∧
    (chat env message sid "en" store).calls.log = [gateCall message] := by
  have hf' : pyTruthy (dictGet kvs "is_medical") = false := by rw [hf]; rfl
  rw [chat_refusal_eq env message sid "en" store k gs kvs hm hk h0 hp hf']
  simp

/-- Claim C8 witness. -/
theorem claimC8_witness :
    (chat ⟨some "key", netB⟩ "What is 2+2?" "s1" "en" emptyStore).result
      = .reply (.text refusalMsg) ∧
    (chat ⟨some "key", netB⟩ "What is 2+2?" "s1" "en" emptyStore).store = emptyStore ∧
    (chat ⟨some "key", netB⟩ "What is 2+2?" "s1" "en" emptyStore).calls.log
      = [gateCall "What is 2+2?"] :=
  claimC8_refusal_en ⟨some "key", netB⟩ "What is 2+2?" "s1" emptyStore "key"
    gateFalseStr [("is_medical", .jbool false)] (by decide) rfl rfl rfl rfl

/-! ### Claim C9 -/

/-- Claim C9 counterexample: an unrecognized language code ("xx") on the
medical path still makes a third upstream call (the translation call) and
the reply is that call's output rather than the untranslated analysis. -/
theorem claimC9_counterexample :
    (chat ⟨some "key", netA⟩ "I have a headache" "s1" "xx" emptyStore).calls.log.length = 3 ∧
    (chat ⟨some "key", netA⟩ "I have a headache" "s1" "xx" emptyStore).result
      = .reply (.text "Texto traducido.") ∧
    ("Texto traducido." : String) ≠ "Analysis reply." := by
  exact ⟨by rfl, by rfl, by decide⟩

/-- Claim C9 (amended): for a language code outside the fixed enumeration
and different from "en"/"en-US", the translation prompt is still built,
with the target language name defaulting to English, and a translation
upstream call is still made (three calls in total on the medical path);
only the language name inside the prompt, not the call, defaults. -/
theorem claimC9_amended (env : Env) (message sid lang : String) (store : Store)
    (k gs : String) (kvs : List (String × JVal))
    (hm : message ≠ "") (hk : env.apiKey = some k)
    (h0 : env.net 0 = .text gs) (hp : json_loads gs = some (.jobj kvs))
    (ht : pyTruthy (dictGet kvs "is_medical") = true)
    (hl1 : lang ≠ "en") (hl2 : lang ≠ "en-US")
    (hlm : language_map.find? (fun p => p.1 = lang) = none) :
    (chat env message sid lang store).calls.log
      = [gateCall message, analysisCall message ((store sid).getD []),
         ⟨LanguageTranslationAgent.promptFor (contentStr (toReplyVal (env.net 1))) "English",
          "gemini-2.0-flash", false⟩] := by
  rw [chat_medical_eq env message sid lang store k gs kvs hm hk h0 hp ht]
  dsimp only
  simp [hl1, hl2, LanguageTranslationAgent.get_prompt, mapGet, hlm]

/-- Claim C9 witness. -/
theorem claimC9_witness :
    (chat ⟨some "key", netA⟩ "I have a headache" "s1" "xx" emptyStore).calls.log
      = [gateCall "I have a headache", analysisCall "I have a headache" [],
         ⟨LanguageTranslationAgent.promptFor (contentStr (toReplyVal (netA 1))) "English",
          "gemini-2.0-flash", false⟩] :=
  claimC9_amended ⟨some "key", netA⟩ "I have a headache" "s1" "xx" emptyStore "key"
    gateTrueStr [("is_medical", .jbool true)] (by decide) rfl rfl rfl rfl
    (by decide) (by decide) rfl

/-! ### Claim C10 -/

/-- Claim C10: under sequential execution of any list of chat requests
starting from the empty session map, every session's stored history is
the concatenation of at most 5 complete (user, assistant) exchanges - in
particular it has even length and, when non-empty, begins with a user
turn; the trim never splits a pair. -/
theorem claimC10_paired_history (rs : List Req) (sid : String) :
    ∃ es : List (String × ReplyVal), es.length ≤ 5 ∧
      ((runChats rs emptyStore) sid).getD [] = exchangesTurns es ∧
      Even (((runChats rs emptyStore) sid).getD []).length ∧
      (((runChats rs emptyStore) sid).getD [] = [] ∨
        ∃ s rest, ((runChats rs emptyStore) sid).getD [] = ⟨.user, .text s⟩ :: rest) := by
  obtain ⟨es, hle, he⟩ := runChats_paired rs emptyStore emptyStore_paired sid
  refine ⟨es, hle, he, ?_, ?_⟩
  · rw [he, exchangesTurns_length]
    exact ⟨es.length, by omega⟩
  · cases es with
    | nil => left; rw [he]; rfl
    | cons e es' =>
      right
      exact ⟨e.1, exchangeTurns e ++ exchangesTurns es' |>.tail, by rw [he]; rfl⟩

